import Mathlib

/-
Verification development for the HTTP request engine of python-arsenalclient
(src/arsenalclient/common/http.py).

The Python module is shallowly embedded: pure helpers become Lean functions,
the stateful request executor becomes explicit state passing over a transport
oracle, and raising/catching of Python exceptions is modelled with Except.
Python-level exceptions that the module itself never catches (TypeError,
AttributeError raised by misuse of objects) are modelled by the PyEx type so
that crash paths of the source are visible in the model.
-/

/-! ## Character constants used by the string level models. -/

def quoteC : Char := Char.ofNat 34

def backslashC : Char := Char.ofNat 92

def lbraceC : Char := Char.ofNat 123

def rbraceC : Char := Char.ofNat 125

def slashC : Char := Char.ofNat 47

/-! ## Python dict with string keys and string values (insertion ordered association list)

Used for the plain dicts the source manipulates (request kwargs headers).
Keys are unique by construction of the operations; lookups take the first hit. -/

def dget (d : List (String × String)) (k : String) : Option String :=
  (d.find? (fun p => p.1 == k)).map (fun p => p.2)

/-- Python dict.setdefault: insert at the end only when the key is absent. -/
def dsetdefault (d : List (String × String)) (k v : String) : List (String × String) :=
  if (dget d k).isSome then d else d ++ [(k, v)]

/-- Python dict item assignment: replace in place when present, else append. -/
def dset (d : List (String × String)) (k v : String) : List (String × String) :=
  if (dget d k).isSome then d.map (fun p => if p.1 == k then (p.1, v) else p) else d ++ [(k, v)]

/-- Python str.lower for header comparison (a character level map, so that
concrete instances reduce in the kernel). -/
def strLower (s : String) : String :=
  String.mk (s.data.map Char.toLower)

/-- Case insensitive header lookup, modelling requests.structures.CaseInsensitiveDict
which backs Response.headers. -/
def hget (hs : List (String × String)) (k : String) : Option String :=
  (hs.find? (fun p => strLower p.1 == strLower k)).map (fun p => p.2)

def strContainsGo : List Char → List Char → Bool
  | [], n => n.isEmpty
  | c :: cs, n => n.isPrefixOf (c :: cs) || strContainsGo cs n

/-- Python substring test s2 in s1 (used by the source via the in operator on str). -/
def strContains (hay needle : String) : Bool :=
  needle.data.isEmpty || strContainsGo hay.data needle.data

/-! ## JSON values, modelling what Python json.loads can return for the bodies
this module handles. Finite numbers are modelled as rationals (covering ints
and the decimal floats JSON can denote); the non-finite float constants NaN,
Infinity and -Infinity, which json.loads also accepts, are kept as a separate
constructor since no rational represents them. -/

inductive FloatSpecial where
  | nan : FloatSpecial
  | inf : FloatSpecial
  | neginf : FloatSpecial
deriving DecidableEq, Repr

inductive Json where
  | null : Json
  | bool (b : Bool) : Json
  | num (q : ℚ) : Json
  | nonfinite (k : FloatSpecial) : Json
  | str (s : String) : Json
  | arr (elems : List Json) : Json
  | obj (fields : List (String × Json)) : Json

/-- Python dict insertion while building a parsed JSON object: a duplicate key
overwrites the earlier value in place. -/
def objInsert (fields : List (String × Json)) (k : String) (v : Json) :
    List (String × Json) :=
  if fields.any (fun p => p.1 == k) then
    fields.map (fun p => if p.1 == k then (p.1, v) else p)
  else fields ++ [(k, v)]

/-! ## A JSON text parser modelling Python json.loads on str input.

Fuel-indexed recursive descent; parseJsonStr gives enough fuel for any input.
A none result models json.loads raising ValueError (JSONDecodeError). -/

def jsonWs (c : Char) : Bool :=
  c == Char.ofNat 32 || c == Char.ofNat 9 || c == Char.ofNat 10 || c == Char.ofNat 13

def skipWs : List Char → List Char
  | [] => []
  | c :: cs => if jsonWs c then skipWs cs else c :: cs

def hexVal (c : Char) : Option Nat :=
  if c.isDigit then some (c.toNat - 48)
  else if 97 ≤ c.toNat ∧ c.toNat ≤ 102 then some (c.toNat - 87)
  else if 65 ≤ c.toNat ∧ c.toNat ≤ 70 then some (c.toNat - 55)
  else none

def parseHex4 : List Char → Option (Nat × List Char)
  | a :: b :: c :: d :: rest =>
    match hexVal a, hexVal b, hexVal c, hexVal d with
    | some x, some y, some z, some w => some (((x * 16 + y) * 16 + z) * 16 + w, rest)
    | _, _, _, _ => none
  | _ => none

def escChar (e : Char) : Option Char :=
  if e == quoteC then some quoteC
  else if e == backslashC then some backslashC
  else if e == slashC then some slashC
  else if e == 'b' then some (Char.ofNat 8)
  else if e == 'f' then some (Char.ofNat 12)
  else if e == 'n' then some (Char.ofNat 10)
  else if e == 'r' then some (Char.ofNat 13)
  else if e == 't' then some (Char.ofNat 9)
  else none

def parseStrChars : Nat → List Char → Option (List Char × List Char)
  | 0, _ => none
  | _, [] => none
  | fuel + 1, c :: cs =>
    if c == quoteC then some ([], cs)
    else if c == backslashC then
      match cs with
      | [] => none
      | e :: cs2 =>
        if e == 'u' then
          match parseHex4 cs2 with
          | some (n, cs3) =>
            (parseStrChars fuel cs3).map (fun p => ((Char.ofNat n) :: p.1, p.2))
          | none => none
        else
          match escChar e with
          | some r => (parseStrChars fuel cs2).map (fun p => (r :: p.1, p.2))
          | none => none
    else (parseStrChars fuel cs).map (fun p => (c :: p.1, p.2))

def takeDigits (cs : List Char) : List Char × List Char :=
  match cs with
  | [] => ([], [])
  | c :: rest =>
    if c.isDigit then
      let (ds, r) := takeDigits rest
      (c :: ds, r)
    else ([], cs)

def natOfDigits (ds : List Char) : Nat :=
  ds.foldl (fun a c => a * 10 + (c.toNat - 48)) 0

def parseNum (cs : List Char) : Option (ℚ × List Char) :=
  let signed := match cs with
    | c :: rest => if c == '-' then (true, rest) else (false, cs)
    | [] => (false, cs)
  let neg := signed.1
  let cs1 := signed.2
  match cs1 with
  | [] => none
  | c0 :: _ =>
    if ¬ c0.isDigit then none else
    let ip := takeDigits cs1
    let ds := ip.1
    let r1 := ip.2
    if 1 < ds.length ∧ ds.headD 'x' == '0' then none else
    let intPart : ℚ := (natOfDigits ds : ℚ)
    let frac : Option (ℚ × List Char) :=
      match r1 with
      | c :: r2 =>
        if c == '.' then
          let fp := takeDigits r2
          if fp.1.isEmpty then none
          else some (intPart + (natOfDigits fp.1 : ℚ) / ((10 : ℚ) ^ fp.1.length), fp.2)
        else some (intPart, r1)
      | [] => some (intPart, r1)
    match frac with
    | none => none
    | some (v1, r3) =>
      let expo : Option (ℚ × List Char) :=
        match r3 with
        | c :: r4 =>
          if c == 'e' ∨ c == 'E' then
            let es := match r4 with
              | d :: r6 =>
                if d == '+' then (true, r6)
                else if d == '-' then (false, r6)
                else (true, r4)
              | [] => (true, r4)
            let ep := takeDigits es.2
            if ep.1.isEmpty then none
            else
              let e := natOfDigits ep.1
              some (if es.1 then v1 * (10 : ℚ) ^ e else v1 / (10 : ℚ) ^ e, ep.2)
          else some (v1, r3)
        | [] => some (v1, r3)
      match expo with
      | none => none
      | some (v2, r8) => some (if neg then -v2 else v2, r8)

mutual

def parseVal : Nat → List Char → Option (Json × List Char)
  | 0, _ => none
  | fuel + 1, cs0 =>
    let cs := skipWs cs0
    match cs with
    | [] => none
    | c :: rest =>
      if c == quoteC then
        (parseStrChars (rest.length + 1) rest).map
          (fun p => (Json.str (String.mk p.1), p.2))
      else if c == lbraceC then
        let r1 := skipWs rest
        match r1 with
        | c2 :: r2 =>
          if c2 == rbraceC then some (Json.obj [], r2)
          else (parseMembers fuel r1 []).map (fun p => (Json.obj p.1, p.2))
        | [] => none
      else if c == '[' then
        let r1 := skipWs rest
        match r1 with
        | c2 :: r2 =>
          if c2 == ']' then some (Json.arr [], r2)
          else (parseElems fuel r1 []).map (fun p => (Json.arr p.1, p.2))
        | [] => none
      else if ['t', 'r', 'u', 'e'].isPrefixOf cs then some (Json.bool true, cs.drop 4)
      else if ['f', 'a', 'l', 's', 'e'].isPrefixOf cs then some (Json.bool false, cs.drop 5)
      else if ['n', 'u', 'l', 'l'].isPrefixOf cs then some (Json.null, cs.drop 4)
      else if ['N', 'a', 'N'].isPrefixOf cs then
        some (Json.nonfinite FloatSpecial.nan, cs.drop 3)
      else if ['I', 'n', 'f', 'i', 'n', 'i', 't', 'y'].isPrefixOf cs then
        some (Json.nonfinite FloatSpecial.inf, cs.drop 8)
      else if ['-', 'I', 'n', 'f', 'i', 'n', 'i', 't', 'y'].isPrefixOf cs then
        some (Json.nonfinite FloatSpecial.neginf, cs.drop 9)
      else (parseNum cs).map (fun p => (Json.num p.1, p.2))

def parseMembers : Nat → List Char → List (String × Json) →
    Option (List (String × Json) × List Char)
  | 0, _, _ => none
  | fuel + 1, cs, acc =>
    match skipWs cs with
    | [] => none
    | c :: rest =>
      if c == quoteC then
        match parseStrChars (rest.length + 1) rest with
        | none => none
        | some (kcs, r1) =>
          match skipWs r1 with
          | [] => none
          | c2 :: r2 =>
            if c2 == ':' then
              match parseVal fuel r2 with
              | none => none
              | some (v, r3) =>
                let acc2 := objInsert acc (String.mk kcs) v
                match skipWs r3 with
                | [] => none
                | c3 :: r4 =>
                  if c3 == ',' then parseMembers fuel r4 acc2
                  else if c3 == rbraceC then some (acc2, r4)
                  else none
            else none
      else none

def parseElems : Nat → List Char → List Json → Option (List Json × List Char)
  | 0, _, _ => none
  | fuel + 1, cs, acc =>
    match parseVal fuel cs with
    | none => none
    | some (v, r1) =>
      let acc2 := acc ++ [v]
      match skipWs r1 with
      | [] => none
      | c :: r2 =>
        if c == ',' then parseElems fuel r2 acc2
        else if c == ']' then some (acc2, r2)
        else none

end

/-- Python json.loads on a str: parse one JSON value, allowing only trailing
whitespace after it; none models ValueError. -/
def parseJsonStr (s : String) : Option Json :=
  match parseVal (2 * s.length + 2) s.data with
  | some (j, rest) => if (skipWs rest).isEmpty then some j else none
  | none => none

/-! ## Python level exceptions that http.py does not catch.

The source catches ValueError (json parse failures) and
requests.exceptions.RequestException (transport failures) only; TypeError,
AttributeError and friends propagate out of the module. -/

inductive PyEx where
  | valueError : PyEx
  | typeError : PyEx
  | attributeError : PyEx
deriving DecidableEq, Repr

/-- Python json.loads applied to the body argument of _extract_error_json.
The call sites pass either a str (or bytes, same behaviour) or None; None is
not an acceptable input for json.loads and raises TypeError, which is not a
ValueError and therefore escapes the except clause of _extract_error_json. -/
def json_loads_body (body : Option String) : Except PyEx Json :=
  match body with
  | none => Except.error PyEx.typeError
  | some s =>
    match parseJsonStr s with
    | some j => Except.ok j
    | none => Except.error PyEx.valueError

/-- Python json.loads applied to an already-parsed JSON value (the raw_msg in
_extract_error_json): only a str value can be decoded again, every other
runtime type raises TypeError. -/
def json_loads_val (v : Json) : Except PyEx Json :=
  match v with
  | Json.str s =>
    match parseJsonStr s with
    | some j => Except.ok j
    | none => Except.error PyEx.valueError
  | _ => Except.error PyEx.typeError

/-- Python membership test key in v for the values json.loads can produce:
dict membership on objects, element equality on lists, substring test on
strings; numbers, booleans and None are not containers and raise TypeError. -/
def pyIn (key : String) (v : Json) : Except PyEx Bool :=
  match v with
  | Json.obj fields => Except.ok (fields.any (fun p => p.1 == key))
  | Json.arr xs =>
    Except.ok (xs.any (fun el => match el with
      | Json.str s => s == key
      | _ => false))
  | Json.str s => Except.ok (strContains s key)
  | _ => Except.error PyEx.typeError

/-- Python subscription v[key] with a string key: only a dict supports it
(string and list subscription demand integer indices and raise TypeError).
The source only subscripts after a successful membership test, so the dict
case always finds the key; a missing key is still mapped to an error for
totality. -/
def pyIndex (v : Json) (key : String) : Except PyEx Json :=
  match v with
  | Json.obj fields =>
    match fields.find? (fun p => p.1 == key) with
    | some p => Except.ok p.2
    | none => Except.error PyEx.typeError
  | _ => Except.error PyEx.typeError

/-- Python v.get(key) used on the extraction result at the call sites: only a
dict has a get method; any other runtime value raises AttributeError. -/
def pyGet (v : Json) (key : String) : Except PyEx (Option Json) :=
  match v with
  | Json.obj fields => Except.ok ((fields.find? (fun p => p.1 == key)).map (fun p => p.2))
  | _ => Except.error PyEx.attributeError

/-- Body of the try block in _extract_error_json, before exception handling:
body_json = json.loads(body); if error_message in body_json:
raw_msg = body_json[error_message]; error_json = json.loads(raw_msg).
The returned value is the final value of the error_json variable. -/
def extract_error_json_try (body : Option String) : Except PyEx Json := do
  let body_json ← json_loads_body body
  let present ← pyIn "error_message" body_json
  if present then
    let raw_msg ← pyIndex body_json "error_message"
    json_loads_val raw_msg
  else
    pure (Json.obj [])

/-- Model of _extract_error_json (http.py lines 48-59): error_json starts as
the empty dict, the try block may replace it, and only ValueError is caught
(pass); any other exception propagates to the caller. -/
def _extract_error_json (body : Option String) : Except PyEx Json :=
  match extract_error_json_try body with
  | Except.ok j => Except.ok j
  | Except.error PyEx.valueError => Except.ok (Json.obj [])
  | Except.error e => Except.error e

/-! ## Module constants (http.py lines 33-42). -/

def USER_AGENT : String := "python-arsenalclient"

def DEFAULT_MAX_RETRIES : Nat := 5

def DEFAULT_RETRY_INTERVAL : Nat := 2

def SENSITIVE_HEADERS : List String := ["X-Auth-Token"]

def SUPPORTED_ENDPOINT_SCHEME : List String := ["http", "https"]

/-! ## SHA1, modelling hashlib.sha1(value.encode(utf-8)).hexdigest().

Executable reference implementation over byte lists; 32-bit words are Nats
reduced mod 2 ^ 32 at every step. -/

def u32 (n : Nat) : Nat := n % 4294967296

def rotl (b n : Nat) : Nat := u32 ((n <<< b) ||| (n >>> (32 - b)))

/-- UTF-8 encoding of one character, as Python str.encode produces. -/
def utf8Char (c : Char) : List Nat :=
  let n := c.toNat
  if n < 128 then [n]
  else if n < 2048 then [192 + n / 64, 128 + n % 64]
  else if n < 65536 then [224 + n / 4096, 128 + (n / 64) % 64, 128 + n % 64]
  else [240 + n / 262144, 128 + (n / 4096) % 64, 128 + (n / 64) % 64, 128 + n % 64]

def utf8Bytes (s : String) : List Nat :=
  (s.data.map utf8Char).flatten

def be8Bytes (n : Nat) : List Nat :=
  ((List.range 8).reverse).map (fun i => (n >>> (8 * i)) % 256)

def sha1Pad (msg : List Nat) : List Nat :=
  let l := msg.length
  let k := (119 - l % 64) % 64
  msg ++ [128] ++ List.replicate k 0 ++ be8Bytes (8 * l)

def chunksOf : Nat → List Nat → List (List Nat)
  | 0, _ => []
  | _, [] => []
  | fuel + 1, l => l.take 64 :: chunksOf fuel (l.drop 64)

def beWord (bs : List Nat) : Nat :=
  bs.foldl (fun a x => a * 256 + x) 0

def wordsOf : Nat → List Nat → List Nat
  | 0, _ => []
  | _, [] => []
  | fuel + 1, l => beWord (l.take 4) :: wordsOf fuel (l.drop 4)

def sha1ExtendW (w : List Nat) : List Nat :=
  (List.range 64).foldl
    (fun w _ =>
      let i := w.length
      w ++ [rotl 1 ((w.getD (i - 3) 0) ^^^ (w.getD (i - 8) 0) ^^^
                    (w.getD (i - 14) 0) ^^^ (w.getD (i - 16) 0))])
    w

def sha1F (i b c d : Nat) : Nat :=
  if i < 20 then (b &&& c) ||| ((b ^^^ 4294967295) &&& d)
  else if i < 40 then b ^^^ c ^^^ d
  else if i < 60 then (b &&& c) ||| (b &&& d) ||| (c &&& d)
  else b ^^^ c ^^^ d

def sha1K (i : Nat) : Nat :=
  if i < 20 then 1518500249
  else if i < 40 then 1859775393
  else if i < 60 then 2400959708
  else 3395469782

def sha1Chunk (h : Nat × Nat × Nat × Nat × Nat) (chunk : List Nat) :
    Nat × Nat × Nat × Nat × Nat :=
  let w := sha1ExtendW (wordsOf 16 chunk)
  let (h0, h1, h2, h3, h4) := h
  let st := w.enum.foldl
    (fun st p =>
      let (a, b, c, d, e) := st
      let t := u32 (rotl 5 a + sha1F p.1 b c d + e + sha1K p.1 + p.2)
      (t, a, rotl 30 b, c, d))
    (h0, h1, h2, h3, h4)
  (u32 (h0 + st.1), u32 (h1 + st.2.1), u32 (h2 + st.2.2.1),
   u32 (h3 + st.2.2.2.1), u32 (h4 + st.2.2.2.2))

def hexDigitChar (n : Nat) : Char :=
  if n < 10 then Char.ofNat (48 + n) else Char.ofNat (87 + n)

def wordHex (n : Nat) : List Char :=
  ((List.range 8).reverse).map (fun i => hexDigitChar ((n >>> (4 * i)) % 16))

/-- hashlib.sha1 hexdigest of the UTF-8 encoding of a string. -/
def sha1hex (s : String) : String :=
  let msg := sha1Pad (utf8Bytes s)
  let h := (chunksOf (msg.length + 1) msg).foldl sha1Chunk
    (1732584193, 4023233417, 2562383102, 271733878, 3285377520)
  String.mk (wordHex h.1 ++ wordHex h.2.1 ++ wordHex h.2.2.1 ++
             wordHex h.2.2.2.1 ++ wordHex h.2.2.2.2)

/-- Model of HTTPClient._process_header (http.py lines 130-150): a name listed
in SENSITIVE_HEADERS (exact string membership) has its value replaced by the
marker-prefixed sha1 hexdigest; every other pair is returned unchanged. -/
def _process_header (name value : String) : String × String :=
  if name ∈ SENSITIVE_HEADERS then
    (name, "\x7bSHA1\x7d" ++ sha1hex value)
  else
    (name, value)

/-! ## URL handling, modelling six.moves.urllib.parse (urlparse / urljoin) on
the inputs this module passes. -/

def schemeChar (c : Char) : Bool :=
  c.isAlpha || c.isDigit || c == '+' || c == '-' || c == '.'

/-- Split off a URL scheme: the text before the first colon counts as the
scheme when it starts with a letter and uses only scheme characters; it is
lowercased, as urlparse does. -/
def splitScheme (url : String) : Option (String × String) :=
  match url.data.findIdx? (fun c => c == ':') with
  | none => none
  | some i =>
    let pre := url.data.take i
    if 0 < i ∧ (pre.headD ' ').isAlpha ∧ pre.all schemeChar then
      some (String.mk (pre.map Char.toLower), String.mk (url.data.drop (i + 1)))
    else none

def netlocEnd (c : Char) : Bool :=
  c == slashC || c == '?' || c == '#'

/-- Split rest (already past the scheme) into netloc and the remainder when it
starts with a double slash. -/
def splitNetloc (rest : String) : String × String :=
  if [slashC, slashC].isPrefixOf rest.data then
    let after := rest.data.drop 2
    (String.mk (after.takeWhile (fun c => ¬ netlocEnd c)),
     String.mk (after.dropWhile (fun c => ¬ netlocEnd c)))
  else ("", rest)

structure UrlParts where
  scheme : String
  netloc : String
  rest : String
deriving DecidableEq, Repr

/-- Model of urlparse on the fields this module reads. urlsplit raises
ValueError (Invalid IPv6 URL) when the netloc holds an unbalanced square
bracket; otherwise it never raises on str input. -/
def urlparse (url : String) : Except PyEx UrlParts :=
  let p := match splitScheme url with
    | some (sc, rest) => (sc, rest)
    | none => ("", url)
  let q := splitNetloc p.2
  if ('[' ∈ q.1.data ∧ ¬ (']' ∈ q.1.data)) ∨ (']' ∈ q.1.data ∧ ¬ ('[' ∈ q.1.data)) then
    Except.error PyEx.valueError
  else
    Except.ok ⟨p.1, q.1, q.2⟩

/-- Model of urljoin for the joins the executor performs: an absolute URL
replaces the base; a root-relative path keeps the base scheme and netloc; a
relative path replaces the last path segment of the base. -/
def urljoin (base url : String) : String :=
  if url == "" then base
  else if (splitScheme url).isSome then url
  else
    match urlparse base with
    | Except.error _ => url
    | Except.ok p =>
      let prefixPart := p.scheme ++ "://" ++ p.netloc
      if [slashC].isPrefixOf url.data then prefixPart ++ url
      else
        let basePath := p.rest
        let cut := String.mk ((basePath.data.reverse.dropWhile (fun c => ¬ c == slashC)).reverse)
        prefixPart ++ (if cut == "" then "/" else cut) ++ url

/-! ## Typed failures.

Modelled from the spec: the arsenalclient.exc module is not part of src/; the
spec (sections 4.4 and 7) fixes the failure kinds this module raises and which
of them exc.from_response produces for which status: Conflict for 409,
ServiceUnavailable for 503, a generic HTTP failure carrying status, fault
string and debug info otherwise; ValidationError, ConnectionRefused and
EndpointException are raised directly by the executor and the constructor.
fuelExhausted is an artefact of the embedding marking exhaustion of the
recursion fuel (the source recursion is unbounded); pyError wraps a Python
level exception escaping the module. -/

inductive Err where
  | conflict (fault debug : Option Json) (method url : String) : Err
  | serviceUnavailable (fault debug : Option Json) (method url : String) : Err
  | connectionRefused (msg : String) : Err
  | validationError (msg : String) : Err
  | httpError (status : Nat) (fault debug : Option Json) (method url : String) : Err
  | endpointException (msg : String) : Err
  | pyError (e : PyEx) : Err
  | fuelExhausted : Err

/-- Modelled from the spec: exc.from_response (absent from src/), the
ErrorClassifier of section 4.4: status drives the kind; 409 maps to Conflict,
503 to ServiceUnavailable, anything else to the generic HTTP failure. -/
def from_response (status : Nat) (fault debug : Option Json) (method url : String) : Err :=
  if status == 409 then Err.conflict fault debug method url
  else if status == 503 then Err.serviceUnavailable fault debug method url
  else Err.httpError status fault debug method url

/-- Membership in _RETRY_EXCEPTIONS (http.py lines 70-71): exc.Conflict,
exc.ServiceUnavailable and exc.ConnectionRefused are the only caught kinds. -/
def isRetryableErr : Err → Bool
  | Err.conflict _ _ _ _ => true
  | Err.serviceUnavailable _ _ _ _ => true
  | Err.connectionRefused _ => true
  | _ => false

/-! ## The retry wrapper (http.py lines 73-99).

The wrapped attempt is a state-threading function so that successive attempts
can observe different transport behaviour, exactly as the real attempts hit
the network again. The wrapper returns the final state, the number of attempts
actually made, the list of sleep durations performed (in order), and the
outcome: the value returned by the first successful attempt or the error
raised by the attempt that ended the loop. -/

def retryGo {σ α : Type} (interval : Nat) (func : σ → σ × Except Err α) :
    Nat → σ → σ × Nat × List Nat × Except Err α
  | remaining, s =>
    match func s with
    | (s1, Except.ok a) => (s1, 1, [], Except.ok a)
    | (s1, Except.error e) =>
      if isRetryableErr e then
        match remaining with
        | 0 => (s1, 1, [], Except.error e)
        | rem + 1 =>
          let r := retryGo interval func rem s1
          (r.1, r.2.1 + 1, interval :: r.2.2.1, r.2.2.2)
      else (s1, 1, [], Except.error e)

/-- Model of the with_retries wrapper: unset policy fields fall back to the
module defaults; num_attempts = max_retries + 1; the attempt numbered
num_attempts re-raises instead of sleeping; non retryable errors propagate at
once. -/
def with_retries {σ α : Type} (conflict_max_retries conflict_retry_interval : Option Nat)
    (func : σ → σ × Except Err α) (s0 : σ) : σ × Nat × List Nat × Except Err α :=
  let maxR := conflict_max_retries.getD DEFAULT_MAX_RETRIES
  let interval := conflict_retry_interval.getD DEFAULT_RETRY_INTERVAL
  retryGo interval func maxR s0

/-! ## HTTPClient. -/

def _trim_endpoint_api_version (url : String) : String := url

inductive VerifyCfg where
  | yes : VerifyCfg
  | no : VerifyCfg
  | ca (path : String) : VerifyCfg
deriving DecidableEq, Repr

/-- Constructor keyword arguments of HTTPClient that the model tracks. For
max_retries and retry_interval the outer Option is presence of the keyword and
the inner Option is the Python value (None or a number), because a keyword
explicitly passed as None is observably different from an absent one (the
retry wrapper later substitutes the defaults for None). -/
structure InitKwargs where
  token : Option String
  max_retries : Option (Option Nat)
  retry_interval : Option (Option Nat)
  insecure : Bool
  ca_file : Option String
  cert_file : Option String
  key_file : Option String

def defaultInitKwargs : InitKwargs :=
  ⟨none, none, none, false, none, none, none⟩

structure HClient where
  endpoint : String
  endpoint_trimmed : String
  auth_token : Option String
  conflict_max_retries : Option Nat
  conflict_retry_interval : Option Nat
  session_verify : VerifyCfg
  session_cert : Option (Option String × Option String)

/-- Model of HTTPClient.__init__ (http.py lines 104-128): fields are stored,
the session is created (no network traffic), then the endpoint is parsed; an
unsupported scheme raises EndpointException; for https the TLS options are
applied to the session. A ValueError escaping urlparse propagates. -/
def HTTPClient_init (endpoint : String) (kwargs : InitKwargs) : Except Err HClient :=
  let auth_token := kwargs.token
  let maxR := kwargs.max_retries.getD (some DEFAULT_MAX_RETRIES)
  let interval := kwargs.retry_interval.getD (some DEFAULT_RETRY_INTERVAL)
  match urlparse endpoint with
  | Except.error e => Except.error (Err.pyError e)
  | Except.ok parts =>
    if ¬ (parts.scheme ∈ SUPPORTED_ENDPOINT_SCHEME) then
      Except.error (Err.endpointException ("Unsupported scheme: " ++ parts.scheme))
    else
      let verify :=
        if parts.scheme == "https" then
          if kwargs.insecure then VerifyCfg.no
          else match kwargs.ca_file with
            | some p => VerifyCfg.ca p
            | none => VerifyCfg.yes
        else VerifyCfg.yes
      let cert :=
        if parts.scheme == "https" then some (kwargs.cert_file, kwargs.key_file) else none
      Except.ok
        { endpoint := endpoint
          endpoint_trimmed := _trim_endpoint_api_version endpoint
          auth_token := auth_token
          conflict_max_retries := maxR
          conflict_retry_interval := interval
          session_verify := verify
          session_cert := cert }

/-- Header preparation of _http_request (http.py lines 205-209): the incoming
headers are deep copied (value semantics here), then User-Agent and, when an
auth token is configured and truthy, X-Auth-Token are set only if absent. -/
def prepare_headers (auth_token : Option String) (headers : List (String × String)) :
    List (String × String) :=
  let h1 := dsetdefault headers "User-Agent" USER_AGENT
  match auth_token with
  | some t => if ¬ (t == "") then dsetdefault h1 "X-Auth-Token" t else h1
  | none => h1

structure Response where
  status_code : Nat
  headers : List (String × String)
  content : String
deriving DecidableEq, Repr

/-- Outcome of one requests.Session.request call: a response, or a raised
requests.exceptions.RequestException which may additionally be a ValueError
(the invalid-URL subclasses). -/
inductive TransportOutcome where
  | resp (r : Response) : TransportOutcome
  | exc (isValueError : Bool) (msg : String) : TransportOutcome

structure IssuedRequest where
  method : String
  url : String
  headers : List (String × String)
  data : Option String
deriving DecidableEq, Repr

structure ExecSt where
  issued : List IssuedRequest
deriving DecidableEq, Repr

def ExecSt.init : ExecSt := ⟨[]⟩

structure Kwargs where
  headers : List (String × String)
  body : Option String
  data : Option String
deriving DecidableEq, Repr

def pyTruthyOptStr : Option String → Bool
  | some s => ¬ (s == "")
  | none => false

/-- Body string read from a response (http.py lines 247-256): buffered into a
string unless the content type is exactly application/octet-stream, in which
case the body stays an unread stream (none). -/
def body_str_of (resp : Response) : Option String :=
  if hget resp.headers "Content-Type" == some "application/octet-stream" then none
  else some resp.content

def transport_err_message (conn_url msg : String) : String :=
  "Error has occurred while handling request for " ++ conn_url ++ ": " ++ msg

/-- Response interpretation of HTTPClient._http_request (http.py lines
247-271), after the 406 branch: statuses at least 400 raise the classified
failure built from the best effort error envelope; 301, 302 and 305 execute
resp[location], a subscription of the requests Response object, which defines
no item access, so the branch raises TypeError before reading the Location
header; 300 raises the classified failure; anything else returns the response
and its body. -/
def handle_response (resp : Response) (method url : String) :
    Except Err (Response × Option String) :=
  let body_str := body_str_of resp
  if 400 ≤ resp.status_code then
    match _extract_error_json body_str with
    | Except.error e => Except.error (Err.pyError e)
    | Except.ok ej =>
      match pyGet ej "faultstring" with
      | Except.error e => Except.error (Err.pyError e)
      | Except.ok fault =>
        match pyGet ej "debuginfo" with
        | Except.error e => Except.error (Err.pyError e)
        | Except.ok debug =>
          Except.error (from_response resp.status_code fault debug method url)
  else if resp.status_code == 301 ∨ resp.status_code == 302 ∨ resp.status_code == 305 then
    Except.error (Err.pyError PyEx.typeError)
  else if resp.status_code == 300 then
    Except.error (from_response resp.status_code none none method url)
  else Except.ok (resp, body_str)

/-- One attempt of HTTPClient._http_request (http.py lines 199-271), the
function that with_retries wraps. recur is the decorated self._http_request
used by the 406 renegotiation branch; negotiate_version stands for the
VersionNegotiator. Modelled from the spec: negotiate_version is called by the
source but defined outside src/; per section 4.5 it returns the version string
to retry with, so it is an arbitrary function of the 406 response here. The
transport oracle maps the index of the transport call to its outcome, and the
state records every request handed to the transport. -/
def http_request_attempt
    (recur : String → String → Kwargs → ExecSt → ExecSt × Except Err (Response × Option String))
    (c : HClient) (negotiate_version : Response → String)
    (oracle : Nat → TransportOutcome)
    (url method : String) (kwargs : Kwargs) (st : ExecSt) :
    ExecSt × Except Err (Response × Option String) :=
  let headers := prepare_headers c.auth_token kwargs.headers
  let body := kwargs.body
  let data := if pyTruthyOptStr body then body else kwargs.data
  let conn_url := urljoin c.endpoint_trimmed url
  let st1 : ExecSt := ⟨st.issued ++ [⟨method, conn_url, headers, data⟩]⟩
  match oracle st.issued.length with
  | TransportOutcome.exc isVE msg =>
    let message := transport_err_message conn_url msg
    if isVE then (st1, Except.error (Err.validationError message))
    else (st1, Except.error (Err.connectionRefused message))
  | TransportOutcome.resp resp =>
    if resp.status_code == 406 then
      let ver := negotiate_version resp
      let kwargs2 : Kwargs := ⟨dset headers "X-OpenStack-Arsenal-API-Version" ver, none, data⟩
      recur url method kwargs2 st1
    else
      (st1, handle_response resp method url)

/-- The decorated HTTPClient._http_request: every entry (the callers and the
self recursive 406 call) passes through the retry wrapper. The fuel bounds the
recursion depth of the embedding only; the source recursion is unbounded. -/
def http_request : Nat → HClient → (Response → String) → (Nat → TransportOutcome) →
    String → String → Kwargs → ExecSt → ExecSt × Except Err (Response × Option String)
  | 0, _, _, _, _, _, _, st => (st, Except.error Err.fuelExhausted)
  | fuel + 1, c, neg, oracle, url, method, kwargs, st =>
    let r := with_retries c.conflict_max_retries c.conflict_retry_interval
      (fun s => http_request_attempt (http_request fuel c neg oracle) c neg oracle
        url method kwargs s) st
    (r.1, r.2.2.2)

/-! ## JSON serialisation, modelling json.dumps for the request bodies the
facades serialise. The output is only carried as an uninterpreted payload by the
models (no theorem inspects it); a rational that is not an integer is emitted
in a num/den notation the real dumps would not use, which no claim relies
on. -/

def escJsonChar (c : Char) : List Char :=
  if c == quoteC then [backslashC, quoteC]
  else if c == backslashC then [backslashC, backslashC]
  else if c == Char.ofNat 10 then [backslashC, 'n']
  else if c == Char.ofNat 9 then [backslashC, 't']
  else if c == Char.ofNat 13 then [backslashC, 'r']
  else [c]

def jdumpStr (s : String) : String :=
  String.mk ([quoteC] ++ (s.data.map escJsonChar).flatten ++ [quoteC])

mutual

def jdump : Json → String
  | Json.null => "null"
  | Json.bool b => if b then "true" else "false"
  | Json.num q =>
    if q.den == 1 then toString q.num else toString q.num ++ "/" ++ toString q.den
  | Json.nonfinite FloatSpecial.nan => "NaN"
  | Json.nonfinite FloatSpecial.inf => "Infinity"
  | Json.nonfinite FloatSpecial.neginf => "-Infinity"
  | Json.str s => jdumpStr s
  | Json.arr xs => "[" ++ jdumpList xs ++ "]"
  | Json.obj fs =>
    String.mk [lbraceC] ++ jdumpFields fs ++ String.mk [rbraceC]

def jdumpList : List Json → String
  | [] => ""
  | [x] => jdump x
  | x :: y :: rest => jdump x ++ ", " ++ jdumpList (y :: rest)

def jdumpFields : List (String × Json) → String
  | [] => ""
  | [p] => jdumpStr p.1 ++ ": " ++ jdump p.2
  | p :: q :: rest => jdumpStr p.1 ++ ": " ++ jdump p.2 ++ ", " ++ jdumpFields (q :: rest)

end

/-! ## The JSON facade of HTTPClient (http.py lines 273-298). -/

/-- Result body of a json_request call: the empty list for 204, 205 or a
missing content type; a decoded JSON value; the undecoded text when decoding
fails (the source logs and keeps the text); None for other content types. -/
inductive JsonBody where
  | emptyList : JsonBody
  | json (j : Json) : JsonBody
  | text (s : String) : JsonBody
  | noneBody : JsonBody

/-- Post-response half of HTTPClient.json_request (http.py lines 282-298).
The Bool records whether json.loads was invoked on the response body, so that
the no-decode claims are about the computation, not only its value. -/
def json_request_finish (resp : Response) (body_iter : Option String) :
    (Response × JsonBody) × Bool :=
  let content_type := hget resp.headers "Content-Type"
  if resp.status_code == 204 ∨ resp.status_code == 205 ∨ content_type == none then
    ((resp, JsonBody.emptyList), false)
  else
    match content_type with
    | some ct =>
      if strContains ct "application/json" then
        let bodyText := body_iter.getD ""
        match parseJsonStr bodyText with
        | some j => ((resp, JsonBody.json j), true)
        | none => ((resp, JsonBody.text bodyText), true)
      else ((resp, JsonBody.noneBody), false)
    | none => ((resp, JsonBody.noneBody), false)

/-- Model of HTTPClient.json_request: Content-Type and Accept default to
application/json, a provided body is serialised, the request runs through the
decorated _http_request, and the response is post processed by
json_request_finish. The final Bool again records whether a JSON decode of the
response body was attempted. -/
def json_request (fuel : Nat) (c : HClient) (neg : Response → String)
    (oracle : Nat → TransportOutcome) (method url : String)
    (headers : List (String × String)) (jbody : Option Json) (st : ExecSt) :
    ExecSt × Except Err (Response × JsonBody) × Bool :=
  let headers2 := dsetdefault (dsetdefault headers "Content-Type" "application/json")
    "Accept" "application/json"
  let kwargs : Kwargs := ⟨headers2, jbody.map jdump, none⟩
  let r := http_request fuel c neg oracle url method kwargs st
  match r.2 with
  | Except.error e => (r.1, Except.error e, false)
  | Except.ok (resp, body_iter) =>
    let f := json_request_finish resp body_iter
    (r.1, Except.ok f.1, f.2)

/-! ## SessionClient (http.py lines 307-382). -/

/-- Modelled from the spec: SessionClient builds on an externally managed
keystone session adapter whose base class is not part of src/; per sections 2
and 3 it supplies the session object, the auth reference and an optional
endpoint override, which the model stores as plain fields. -/
structure SClient where
  conflict_max_retries : Option Nat
  conflict_retry_interval : Option Nat
  endpoint : String
  auth : Option String
  endpoint_override : Option String

/-- Keyword arguments of SessionClient._http_request that the model tracks. -/
structure SKwargs where
  user_agent : Option String
  auth : Option String
  endpoint_override : Option String
  headers : List (String × String)
  data : Option String
deriving DecidableEq, Repr

structure SIssued where
  url : Option String
  method : String
  user_agent : Option String
  auth : Option String
  endpoint_override : Option String
  headers : List (String × String)
  data : Option String
deriving DecidableEq, Repr

structure SExecSt where
  issued : List SIssued
deriving DecidableEq, Repr

def SExecSt.init : SExecSt := ⟨[]⟩

/-- One attempt of SessionClient._http_request (http.py lines 329-351). The
session request is issued with raise_exc set to False, so the oracle returns a
response for every call. On 301, 302 and 305 the Location header (which may be
absent) becomes the url of the recursive re-issue; statuses at least 400 and
300 raise the classified failure built from the response content. -/
def s_http_request_attempt
    (recur : Option String → String → SKwargs → SExecSt → SExecSt × Except Err Response)
    (c : SClient) (oracle : Nat → Response)
    (url : Option String) (method : String) (kw : SKwargs) (st : SExecSt) :
    SExecSt × Except Err Response :=
  let kw1 : SKwargs := { kw with user_agent := some (kw.user_agent.getD USER_AGENT) }
  let newAuth := match kw1.auth with
    | some a => some a
    | none => c.auth
  let kw2 : SKwargs := { kw1 with auth := newAuth }
  let kw3 : SKwargs := match c.endpoint_override with
    | some eo =>
      let eov := some (kw2.endpoint_override.getD (_trim_endpoint_api_version eo))
      { kw2 with endpoint_override := eov }
    | none => kw2
  let resp := oracle st.issued.length
  let st1 : SExecSt := ⟨st.issued ++
    [⟨url, method, kw3.user_agent, kw3.auth, kw3.endpoint_override, kw3.headers, kw3.data⟩]⟩
  if 400 ≤ resp.status_code then
    match _extract_error_json (some resp.content) with
    | Except.error e => (st1, Except.error (Err.pyError e))
    | Except.ok ej =>
      match pyGet ej "faultstring" with
      | Except.error e => (st1, Except.error (Err.pyError e))
      | Except.ok fault =>
        match pyGet ej "debuginfo" with
        | Except.error e => (st1, Except.error (Err.pyError e))
        | Except.ok debug =>
          (st1, Except.error (from_response resp.status_code fault debug method
            (url.getD "None")))
  else if resp.status_code == 301 ∨ resp.status_code == 302 ∨ resp.status_code == 305 then
    let location := hget resp.headers "location"
    recur location method kw3 st1
  else if resp.status_code == 300 then
    (st1, Except.error (from_response resp.status_code none none method (url.getD "None")))
  else (st1, Except.ok resp)

/-- The decorated SessionClient._http_request: entries pass through the retry
wrapper; the redirect branch re-enters it recursively. -/
def s_http_request : Nat → SClient → (Nat → Response) →
    Option String → String → SKwargs → SExecSt → SExecSt × Except Err Response
  | 0, _, _, _, _, _, st => (st, Except.error Err.fuelExhausted)
  | fuel + 1, c, oracle, url, method, kw, st =>
    let r := with_retries c.conflict_max_retries c.conflict_retry_interval
      (fun s => s_http_request_attempt (s_http_request fuel c oracle) c oracle
        url method kw s) st
    (r.1, r.2.2.2)

/-- Post-response half of SessionClient.json_request (http.py lines 362-376):
an empty list for 204, 205 or a missing content type; otherwise a decode
attempt for JSON content (keeping the raw content on failure) or None. The
Bool records whether resp.json() was invoked. -/
def s_json_request_finish (resp : Response) : (Response × JsonBody) × Bool :=
  let content_type := hget resp.headers "content-type"
  if resp.status_code == 204 ∨ resp.status_code == 205 ∨ content_type == none then
    ((resp, JsonBody.emptyList), false)
  else
    match content_type with
    | some ct =>
      if strContains ct "application/json" then
        match parseJsonStr resp.content with
        | some j => ((resp, JsonBody.json j), true)
        | none => ((resp, JsonBody.text resp.content), true)
      else ((resp, JsonBody.noneBody), false)
    | none => ((resp, JsonBody.noneBody), false)

/-- Model of SessionClient.json_request (http.py lines 353-376). -/
def s_json_request (fuel : Nat) (c : SClient) (oracle : Nat → Response)
    (method url : String) (headers : List (String × String)) (jbody : Option Json)
    (st : SExecSt) : SExecSt × Except Err (Response × JsonBody) × Bool :=
  let headers2 := dsetdefault (dsetdefault headers "Content-Type" "application/json")
    "Accept" "application/json"
  let kw : SKwargs := ⟨none, none, none, headers2, jbody.map jdump⟩
  let r := s_http_request fuel c oracle (some url) method kw st
  match r.2 with
  | Except.error e => (r.1, Except.error e, false)
  | Except.ok resp =>
    let f := s_json_request_finish resp
    (r.1, Except.ok f.1, f.2)

/-! ## Lemmas about the dict operations. -/

theorem dget_nil (k : String) : dget [] k = none := rfl

theorem dget_cons (p : String × String) (d : List (String × String)) (k : String) :
    dget (p :: d) k = if p.1 == k then some p.2 else dget d k := by
  simp only [dget, List.find?]
  cases h : p.1 == k <;> simp [h]

theorem dget_append (d1 d2 : List (String × String)) (k : String) :
    dget (d1 ++ d2) k = match dget d1 k with
      | some v => some v
      | none => dget d2 k := by
  induction d1 with
  | nil => simp [dget_nil]
  | cons p d ih =>
    rw [List.cons_append, dget_cons, dget_cons]
    cases h : p.1 == k
    · simp [h, ih]
    · simp [h]

theorem dget_dsetdefault_same (d : List (String × String)) (k v : String) :
    dget (dsetdefault d k v) k = some ((dget d k).getD v) := by
  unfold dsetdefault
  cases h : dget d k with
  | some w => simp [h]
  | none => simp [h, dget_append, dget_cons]

theorem dget_dsetdefault_ne (d : List (String × String)) (k v k2 : String)
    (h : ¬ k2 = k) : dget (dsetdefault d k v) k2 = dget d k2 := by
  unfold dsetdefault
  cases hp : dget d k with
  | some w => simp
  | none =>
    have hk : (k == k2) = false := by
      simp [beq_iff_eq]
      intro he
      exact h he.symm
    simp only [hp, Option.isSome_none, Bool.false_eq_true, if_false]
    rw [dget_append]
    cases hq : dget d k2 <;> simp [dget_cons, dget_nil, hk]

theorem dget_dsetdefault_of_some (d : List (String × String)) (k1 v1 k v : String)
    (h : dget d k = some v) : dget (dsetdefault d k1 v1) k = some v := by
  by_cases hk : k = k1
  · subst hk
    rw [dget_dsetdefault_same, h]
    rfl
  · rw [dget_dsetdefault_ne d k1 v1 k hk, h]

theorem dget_map_replace (d : List (String × String)) (k v k2 : String) :
    dget (d.map (fun p => if p.1 == k then (p.1, v) else p)) k2
      = if k2 = k then (dget d k).map (fun _ => v) else dget d k2 := by
  induction d with
  | nil => by_cases h : k2 = k <;> simp [dget_nil, h]
  | cons p d ih =>
    simp only [beq_iff_eq] at ih
    simp only [List.map_cons]
    by_cases hk : p.1 = k
    · by_cases h2 : k2 = k
      · subst h2
        simp [dget_cons, hk, ih, beq_iff_eq]
      · have hne : ¬ p.1 = k2 := by
          rw [hk]
          intro he
          exact h2 he.symm
        have hne2 : ¬ k = k2 := fun he => h2 he.symm
        simp [dget_cons, hk, hne, hne2, ih, h2, beq_iff_eq]
    · by_cases h2 : k2 = k
      · subst h2
        simp [dget_cons, hk, ih, beq_iff_eq]
      · simp [dget_cons, hk, ih, h2, beq_iff_eq]

theorem dget_dset_same (d : List (String × String)) (k v : String) :
    dget (dset d k v) k = some v := by
  unfold dset
  cases hp : dget d k with
  | some w =>
    simp only [Option.isSome_some, if_true]
    rw [dget_map_replace]
    simp [hp]
  | none =>
    simp only [Option.isSome_none, Bool.false_eq_true, if_false]
    rw [dget_append]
    simp [hp, dget_cons, dget_nil]

theorem dget_dset_ne (d : List (String × String)) (k v k2 : String)
    (h : ¬ k2 = k) : dget (dset d k v) k2 = dget d k2 := by
  unfold dset
  cases hp : (dget d k).isSome with
  | true =>
    rw [if_pos rfl, dget_map_replace, if_neg h]
  | false =>
    have hk : (k == k2) = false := by
      simp [beq_iff_eq]
      intro he
      exact h he.symm
    rw [if_neg (by simp)]
    rw [dget_append]
    cases hq : dget d k2 <;> simp [dget_cons, dget_nil, hk]

theorem dget_prepare_headers_of_some (tok : Option String) (hs : List (String × String))
    (k v : String) (h : dget hs k = some v) :
    dget (prepare_headers tok hs) k = some v := by
  unfold prepare_headers
  cases tok with
  | none => exact dget_dsetdefault_of_some _ _ _ _ _ h
  | some t =>
    cases ht : (t == "")
    · simp only [ht, Bool.not_false, if_pos]
      exact dget_dsetdefault_of_some _ _ _ _ _ (dget_dsetdefault_of_some _ _ _ _ _ h)
    · simp only [ht, Bool.not_true, Bool.false_eq_true, if_false]
      exact dget_dsetdefault_of_some _ _ _ _ _ h

theorem dget_prepare_headers_ne (tok : Option String) (hs : List (String × String))
    (k : String) (h1 : ¬ k = "User-Agent") (h2 : ¬ k = "X-Auth-Token") :
    dget (prepare_headers tok hs) k = dget hs k := by
  cases tok with
  | none =>
    simp only [prepare_headers]
    exact dget_dsetdefault_ne _ _ _ _ h1
  | some t =>
    simp only [prepare_headers]
    cases ht : (t == "")
    · rw [if_pos (by simp [ht])]
      rw [dget_dsetdefault_ne _ _ _ _ h2, dget_dsetdefault_ne _ _ _ _ h1]
    · rw [if_neg (by simp [ht])]
      exact dget_dsetdefault_ne _ _ _ _ h1

/-! ## Claim C10: exact, case sensitive redaction matching. -/

/-- C10: Header redaction matches the secret header name by exact, case
sensitive string equality against X-Auth-Token only: any other name, including
a case variant such as x-auth-token, passes through _process_header (and hence
into the diagnostic log) with its value unchanged, while the exact name
X-Auth-Token is replaced by the marker-prefixed sha1 hexdigest. -/
theorem process_header_exact_match_only :
    (∀ name value : String, ¬ name = "X-Auth-Token" →
      _process_header name value = (name, value)) ∧
    (∀ value : String, _process_header "X-Auth-Token" value
      = ("X-Auth-Token", "\x7bSHA1\x7d" ++ sha1hex value)) := by
  constructor
  · intro name value h
    simp [_process_header, SENSITIVE_HEADERS, h]
  · intro value
    simp [_process_header, SENSITIVE_HEADERS]

/-- Witness for C10 at a concrete case variant of the secret header name. -/
theorem process_header_exact_match_only_witness :
    (¬ "x-auth-token" = "X-Auth-Token") ∧
    _process_header "x-auth-token" "secret" = ("x-auth-token", "secret") :=
  ⟨by decide, process_header_exact_match_only.1 "x-auth-token" "secret" (by decide)⟩

/-! ## Claim C7: header injection never clobbers caller headers. -/

/-- C7: The executor prepares its headers on a copy (prepare_headers is the
deep copied header preparation of _http_request lines 205-209, so the caller
supplied mapping itself is untouched by value semantics): every caller
supplied entry survives unchanged, User-Agent is filled in only when absent,
the auth header is filled in from a configured (truthy) token only when
absent, and no other key is touched. -/
theorem prepare_headers_never_overwrites (tok : Option String)
    (hs : List (String × String)) :
    (∀ k v, dget hs k = some v → dget (prepare_headers tok hs) k = some v) ∧
    (dget hs "User-Agent" = none →
      dget (prepare_headers tok hs) "User-Agent" = some USER_AGENT) ∧
    (∀ t, tok = some t → ¬ t = "" → dget hs "X-Auth-Token" = none →
      dget (prepare_headers tok hs) "X-Auth-Token" = some t) ∧
    (tok = none →
      dget (prepare_headers tok hs) "X-Auth-Token" = dget hs "X-Auth-Token") ∧
    (∀ k, ¬ k = "User-Agent" → ¬ k = "X-Auth-Token" →
      dget (prepare_headers tok hs) k = dget hs k) := by
  refine ⟨fun k v h => dget_prepare_headers_of_some tok hs k v h, ?_, ?_, ?_, ?_⟩
  · intro hua
    cases tok with
    | none =>
      simp only [prepare_headers]
      rw [dget_dsetdefault_same, hua]
      rfl
    | some t =>
      simp only [prepare_headers]
      cases ht : (t == "")
      · rw [if_pos (by simp [ht])]
        refine dget_dsetdefault_of_some _ _ _ _ _ ?_
        rw [dget_dsetdefault_same, hua]
        rfl
      · rw [if_neg (by simp [ht])]
        rw [dget_dsetdefault_same, hua]
        rfl
  · intro t htok hne habs
    subst htok
    simp only [prepare_headers]
    rw [if_pos (by simp [hne])]
    have habs2 : dget (dsetdefault hs "User-Agent" USER_AGENT) "X-Auth-Token" = none := by
      rw [dget_dsetdefault_ne _ _ _ _ (by decide), habs]
    rw [dget_dsetdefault_same, habs2]
    rfl
  · intro htok
    subst htok
    simp only [prepare_headers]
    exact dget_dsetdefault_ne _ _ _ _ (by decide)
  · intro k h1 h2
    exact dget_prepare_headers_ne tok hs k h1 h2

/-- Witness for C7 at a concrete token and concrete caller headers: the caller
supplied User-Agent and X-Auth-Token survive, and on an empty header map both
defaults are injected. -/
theorem prepare_headers_never_overwrites_witness :
    dget (prepare_headers (some "tkn") [("User-Agent", "custom"), ("X-Auth-Token", "mine")])
        "User-Agent" = some "custom" ∧
    dget (prepare_headers (some "tkn") [("User-Agent", "custom"), ("X-Auth-Token", "mine")])
        "X-Auth-Token" = some "mine" ∧
    dget (prepare_headers (some "tkn") []) "User-Agent" = some USER_AGENT ∧
    dget (prepare_headers (some "tkn") []) "X-Auth-Token" = some "tkn" :=
  ⟨(prepare_headers_never_overwrites (some "tkn") _).1 "User-Agent" "custom" rfl,
   (prepare_headers_never_overwrites (some "tkn") _).1 "X-Auth-Token" "mine" rfl,
   (prepare_headers_never_overwrites (some "tkn") []).2.1 rfl,
   (prepare_headers_never_overwrites (some "tkn") []).2.2.1 "tkn" rfl (by decide) rfl⟩

/-! ## Claims C1 and C5: the retry policy. -/

/-- Unrolling of the retry loop when every attempt raises a retryable error:
starting with remaining budget rem at state s, the loop makes rem + 1 further
attempts, sleeps rem times, and ends with the error of the last attempt. -/
theorem retryGo_always_retryable {α : Type} (i : Nat) (f : Nat → Err)
    (hr : ∀ k, isRetryableErr (f k) = true) :
    ∀ (rem s : Nat),
      retryGo (α := α) i (fun k => (k + 1, Except.error (f k))) rem s
        = (s + rem + 1, rem + 1, List.replicate rem i, Except.error (f (s + rem))) := by
  intro rem
  induction rem with
  | zero =>
    intro s
    rw [retryGo]
    simp [hr s]
  | succ n ih =>
    intro s
    rw [retryGo]
    simp only [hr (s + 0), hr s, if_true, List.replicate]
    rw [ih (s + 1)]
    have h1 : s + 1 + n = s + (n + 1) := by omega
    simp [h1]

/-- C1: For a configured max_retries = n and retry_interval = i, a request
whose underlying attempt always raises a retryable error (Conflict,
ServiceUnavailable or ConnectionRefused) is attempted exactly n + 1 times by
the retry wrapper, the wrapper sleeps for the interval exactly n times (after
every attempt but the last), and the error finally raised is exactly the
error of the last attempt. -/
theorem with_retries_exhausts_on_retryable {α : Type} (n i : Nat) (f : Nat → Err)
    (hr : ∀ k, isRetryableErr (f k) = true) :
    with_retries (α := α) (some n) (some i)
        (fun k => (k + 1, Except.error (f k))) 0
      = (n + 1, n + 1, List.replicate n i, Except.error (f n)) := by
  have h := retryGo_always_retryable (α := α) i f hr n 0
  simpa [with_retries] using h

/-- Witness for C1: three attempts, two sleeps of the configured interval, and
the last error surfacing, at max_retries = 2 and retry_interval = 7. -/
theorem with_retries_exhausts_on_retryable_witness :
    (∀ k : Nat,
      isRetryableErr (Err.serviceUnavailable none none "GET" (toString k)) = true) ∧
    with_retries (α := Unit) (some 2) (some 7)
        (fun k => (k + 1,
          Except.error (Err.serviceUnavailable none none "GET" (toString k)))) 0
      = (3, 3, List.replicate 2 7,
         Except.error (Err.serviceUnavailable none none "GET" (toString 2))) :=
  ⟨fun _ => rfl,
   with_retries_exhausts_on_retryable 2 7
     (fun k => Err.serviceUnavailable none none "GET" (toString k)) (fun _ => rfl)⟩

/-- C5: A failure outside the retryable set ends the retry wrapper on the
first attempt, whatever the configured max_retries and retry_interval: exactly
one attempt is made, no sleep happens, and the error propagates unchanged. -/
theorem with_retries_propagates_nonretryable {σ α : Type}
    (mR iv : Option Nat) (func : σ → σ × Except Err α) (s0 : σ) (e : Err)
    (h1 : (func s0).2 = Except.error e) (h2 : isRetryableErr e = false) :
    with_retries mR iv func s0 = ((func s0).1, 1, [], Except.error e) := by
  unfold with_retries
  rw [retryGo]
  cases hp : func s0 with
  | mk s1 r =>
    rw [hp] at h1
    simp only at h1
    subst h1
    simp [h2]

/-- Witness for C5: a ValidationError ends the wrapper at once even with a
large retry budget. -/
theorem with_retries_propagates_nonretryable_witness :
    ((fun k : Nat => (k + 1, Except.error (α := Unit) (Err.validationError "bad"))) 0).2
        = Except.error (Err.validationError "bad") ∧
    isRetryableErr (Err.validationError "bad") = false ∧
    with_retries (some 5) (some 7)
        (fun k : Nat => (k + 1, Except.error (α := Unit) (Err.validationError "bad"))) 0
      = (1, 1, [], Except.error (Err.validationError "bad")) :=
  ⟨rfl, rfl,
   with_retries_propagates_nonretryable (some 5) (some 7) _ 0 _ rfl rfl⟩

/-! ## Claim C4: best effort error envelope extraction. -/

/-- Inputs on which _extract_error_json cannot hit an uncaught exception: the
body parses to nothing, or to a value whose error_message lookup path stays
inside the cases Python handles without a TypeError (an object whose
error_message field, if present, holds a string; an array not containing the
string error_message; a string not containing it as a substring). -/
def envelopeShapeOk (body : String) : Bool :=
  match parseJsonStr body with
  | none => true
  | some (Json.obj fields) =>
    match fields.find? (fun p => p.1 == "error_message") with
    | none => true
    | some q =>
      match q.2 with
      | Json.str _ => true
      | _ => false
  | some (Json.arr xs) =>
    (xs.any (fun el => match el with
      | Json.str s => s == "error_message"
      | _ => false)) == false
  | some (Json.str s) => strContains s "error_message" == false
  | some _ => false

theorem extract_ok_of_parse_none (body : String) (hp : parseJsonStr body = none) :
    _extract_error_json (some body) = Except.ok (Json.obj []) := by
  simp [_extract_error_json, extract_error_json_try, json_loads_body, hp,
    Bind.bind, Except.bind]

theorem any_eq_false_of_find?_eq_none {α : Type} (p : α → Bool) (l : List α)
    (hf : l.find? p = none) : l.any p = false := by
  rw [Bool.eq_false_iff]
  intro hta
  obtain ⟨x, hx, hpx⟩ := List.any_eq_true.mp hta
  exact (List.find?_eq_none.mp hf x hx) hpx

theorem any_eq_true_of_find?_eq_some {α : Type} (p : α → Bool) (l : List α)
    (q : α) (hf : l.find? p = some q) : l.any p = true :=
  List.any_eq_true.mpr ⟨q, List.mem_of_find?_eq_some hf, List.find?_some hf⟩

theorem extract_ok_of_no_field (body : String) (fields : List (String × Json))
    (hp : parseJsonStr body = some (Json.obj fields))
    (hf : fields.find? (fun p => p.1 == "error_message") = none) :
    _extract_error_json (some body) = Except.ok (Json.obj []) := by
  have hany := any_eq_false_of_find?_eq_none _ fields hf
  simp [_extract_error_json, extract_error_json_try, json_loads_body, hp, pyIn,
    hany, Bind.bind, Except.bind, Pure.pure, Except.pure]

theorem extract_ok_of_nested_fail (body : String) (fields : List (String × Json))
    (q : String × Json) (s : String)
    (hp : parseJsonStr body = some (Json.obj fields))
    (hf : fields.find? (fun p => p.1 == "error_message") = some q)
    (hq : q.2 = Json.str s) (hs : parseJsonStr s = none) :
    _extract_error_json (some body) = Except.ok (Json.obj []) := by
  have hany := any_eq_true_of_find?_eq_some _ fields q hf
  simp [_extract_error_json, extract_error_json_try, json_loads_body, hp, pyIn,
    hany, pyIndex, hf, hq, json_loads_val, hs, Bind.bind, Except.bind,
    Pure.pure, Except.pure]

theorem extract_ok_of_nested_parse (body : String) (fields : List (String × Json))
    (q : String × Json) (s : String) (j2 : Json)
    (hp : parseJsonStr body = some (Json.obj fields))
    (hf : fields.find? (fun p => p.1 == "error_message") = some q)
    (hq : q.2 = Json.str s) (hs : parseJsonStr s = some j2) :
    _extract_error_json (some body) = Except.ok j2 := by
  have hany := any_eq_true_of_find?_eq_some _ fields q hf
  simp [_extract_error_json, extract_error_json_try, json_loads_body, hp, pyIn,
    hany, pyIndex, hf, hq, json_loads_val, hs, Bind.bind, Except.bind,
    Pure.pure, Except.pure]

theorem extract_no_raise (body : String) (hok : envelopeShapeOk body = true) :
    ∃ j, _extract_error_json (some body) = Except.ok j := by
  unfold envelopeShapeOk at hok
  cases hp : parseJsonStr body with
  | none => exact ⟨_, extract_ok_of_parse_none body hp⟩
  | some j =>
    rw [hp] at hok
    cases j with
    | null => simp at hok
    | bool b => simp at hok
    | num n => simp at hok
    | nonfinite k => simp at hok
    | str s =>
      have hc : strContains s "error_message" = false := by simpa using hok
      refine ⟨Json.obj [], ?_⟩
      simp [_extract_error_json, extract_error_json_try, json_loads_body, hp,
        pyIn, hc, Bind.bind, Except.bind, Pure.pure, Except.pure]
    | arr xs =>
      have hc : (xs.any (fun el => match el with
          | Json.str s => s == "error_message"
          | _ => false)) = false := by simpa using hok
      refine ⟨Json.obj [], ?_⟩
      simp [_extract_error_json, extract_error_json_try, json_loads_body, hp,
        pyIn, hc, Bind.bind, Except.bind, Pure.pure, Except.pure]
    | obj fields =>
      simp only at hok
      cases hf : fields.find? (fun p => p.1 == "error_message") with
      | none => exact ⟨_, extract_ok_of_no_field body fields hp hf⟩
      | some q =>
        rw [hf] at hok
        simp only at hok
        cases hq : q.2 with
        | str s =>
          cases hs : parseJsonStr s with
          | none => exact ⟨_, extract_ok_of_nested_fail body fields q s hp hf hq hs⟩
          | some j2 => exact ⟨j2, extract_ok_of_nested_parse body fields q s j2 hp hf hq hs⟩
        | null => rw [hq] at hok; simp at hok
        | bool b => rw [hq] at hok; simp at hok
        | num n => rw [hq] at hok; simp at hok
        | nonfinite k => rw [hq] at hok; simp at hok
        | arr xs => rw [hq] at hok; simp at hok
        | obj f2 => rw [hq] at hok; simp at hok

/-- C4 counterexample: the claim asserts extraction never raises, in
particular for an absent body and for malformed content, yet
_extract_error_json propagates TypeError when the body is None (the
octet-stream response path of _http_request hands it exactly that), when a
present body decodes to an object whose error_message field is not a string
(json.loads raises TypeError on non-string input and only ValueError is
caught), and when the body is the accepted non-finite constant NaN (the
membership test error_message in nan raises TypeError on a float). -/
theorem extract_error_json_raises_counterexample :
    _extract_error_json none = Except.error PyEx.typeError ∧
    _extract_error_json (some "\x7b\"error_message\": 42\x7d")
      = Except.error PyEx.typeError ∧
    _extract_error_json (some "NaN") = Except.error PyEx.typeError :=
  ⟨rfl, rfl, rfl⟩

/-- C4 (amended): For every present (string) body whose decoded error_message
field, when reachable, holds a string, extraction never raises; a body that
is not valid JSON, decodes to an object lacking the error_message field, or
whose nested error_message string fails to re-parse, yields the empty
envelope; and a 409 response whose (string) body is unparsable still
classifies to the Conflict kind from the status code alone. (The unamended
claim also covered an absent body and arbitrary malformed nesting; the
counterexample shows those raise TypeError.) -/
theorem extract_error_json_best_effort (body : String) :
    (envelopeShapeOk body = true →
      ∃ j, _extract_error_json (some body) = Except.ok j) ∧
    (parseJsonStr body = none →
      _extract_error_json (some body) = Except.ok (Json.obj [])) ∧
    (∀ fields, parseJsonStr body = some (Json.obj fields) →
      fields.find? (fun p => p.1 == "error_message") = none →
      _extract_error_json (some body) = Except.ok (Json.obj [])) ∧
    (∀ fields q s, parseJsonStr body = some (Json.obj fields) →
      fields.find? (fun p => p.1 == "error_message") = some q →
      q.2 = Json.str s → parseJsonStr s = none →
      _extract_error_json (some body) = Except.ok (Json.obj [])) ∧
    (∀ (resp : Response) (method url : String), resp.status_code = 409 →
      ¬ hget resp.headers "Content-Type" = some "application/octet-stream" →
      parseJsonStr resp.content = none →
      handle_response resp method url
        = Except.error (Err.conflict none none method url)) := by
  refine ⟨extract_no_raise body, extract_ok_of_parse_none body,
    fun fields hp hf => extract_ok_of_no_field body fields hp hf,
    fun fields q s hp hf hq hs => extract_ok_of_nested_fail body fields q s hp hf hq hs,
    ?_⟩
  intro resp method url h409 hct hparse
  have hbs : body_str_of resp = some resp.content := by
    unfold body_str_of
    rw [if_neg]
    intro hc
    exact hct (by simpa [beq_iff_eq] using hc)
  simp only [handle_response, hbs, h409]
  rw [if_pos (by norm_num), extract_ok_of_parse_none resp.content hparse]
  simp [pyGet, from_response]

/-- Witness for C4 at a concrete unparsable body and a concrete 409
response. -/
theorem extract_error_json_best_effort_witness :
    envelopeShapeOk "junk" = true ∧
    (∃ j, _extract_error_json (some "junk") = Except.ok j) ∧
    handle_response ⟨409, [("Content-Type", "application/json")], "junk"⟩ "GET" "/nodes"
      = Except.error (Err.conflict none none "GET" "/nodes") :=
  ⟨rfl, (extract_error_json_best_effort "junk").1 rfl,
   (extract_error_json_best_effort "junk").2.2.2.2
     ⟨409, [("Content-Type", "application/json")], "junk"⟩ "GET" "/nodes"
     rfl (by decide) rfl⟩

/-! ## Claim C9: endpoint scheme validation at construction. -/

/-- C9 counterexample: the claim asserts construction succeeds without raising
for every http/https endpoint, yet urlparse raises ValueError (Invalid IPv6
URL) inside HTTPClient.__init__ for an http endpoint whose authority has an
unbalanced bracket, before the scheme check is reached. -/
theorem http_client_init_raises_value_error :
    HTTPClient_init "http://[" defaultInitKwargs
      = Except.error (Err.pyError PyEx.valueError) := rfl

/-- C9 (amended): When the endpoint parses, an unsupported scheme raises
EndpointException immediately (the constructor performs no transport call:
the model takes no transport oracle at all) and a supported scheme (http or
https) constructs the client without raising; when the endpoint itself fails
to parse, the ValueError from urlparse propagates regardless of the scheme
text. (The unamended claim asserted unconditional success for http/https; the
counterexample shows a malformed authority still raises.) -/
theorem http_client_init_scheme_check (endpoint : String) (kwargs : InitKwargs) :
    (∀ parts, urlparse endpoint = Except.ok parts →
      ((parts.scheme ∈ SUPPORTED_ENDPOINT_SCHEME →
          ∃ c, HTTPClient_init endpoint kwargs = Except.ok c) ∧
       (¬ parts.scheme ∈ SUPPORTED_ENDPOINT_SCHEME →
          HTTPClient_init endpoint kwargs
            = Except.error
                (Err.endpointException ("Unsupported scheme: " ++ parts.scheme))))) ∧
    (∀ e, urlparse endpoint = Except.error e →
      HTTPClient_init endpoint kwargs = Except.error (Err.pyError e)) := by
  constructor
  · intro parts hp
    constructor
    · intro hin
      simp only [HTTPClient_init, hp]
      rw [if_neg (by simpa using hin)]
      exact ⟨_, rfl⟩
    · intro hout
      simp only [HTTPClient_init, hp]
      rw [if_pos hout]
  · intro e he
    simp only [HTTPClient_init, he]

/-- Witness for C9 at concrete endpoints: ftp is rejected with
EndpointException, http is accepted. -/
theorem http_client_init_scheme_check_witness :
    urlparse "ftp://example.com" = Except.ok ⟨"ftp", "example.com", ""⟩ ∧
    HTTPClient_init "ftp://example.com" defaultInitKwargs
      = Except.error (Err.endpointException "Unsupported scheme: ftp") ∧
    (∃ c, HTTPClient_init "http://example.com" defaultInitKwargs = Except.ok c) := by
  refine ⟨rfl, ?_, ?_⟩
  · exact ((http_client_init_scheme_check "ftp://example.com" defaultInitKwargs).1
      ⟨"ftp", "example.com", ""⟩ rfl).2 (by decide)
  · exact ((http_client_init_scheme_check "http://example.com" defaultInitKwargs).1
      ⟨"http", "example.com", ""⟩ rfl).1 (by decide)

/-! ## Claim C2: redirect handling. -/

def redirectClient : HClient :=
  ⟨"http://arsenal.example.com", "http://arsenal.example.com", none, some 1, some 0,
   VerifyCfg.yes, none⟩

def redirectOracle : Nat → TransportOutcome :=
  fun _ => TransportOutcome.resp ⟨301, [("Location", "/v2/foo")], ""⟩

def redirectRun : ExecSt × Except Err (Response × Option String) :=
  http_request 4 redirectClient (fun _ => "1") redirectOracle
    "/nodes" "GET" ⟨[], none, none⟩ ExecSt.init

/-- C2: on a 301 response carrying Location /v2/foo, HTTPClient._http_request
does not re-issue the request against the Location value: line 267 evaluates
resp[location], subscripting the requests Response object (which defines no
item access), so the call raises TypeError after a single transport call and
the Location header is never read. SessionClient (lines 344-348) reads
resp.headers.get(location) and does follow the redirect, see
s_http_request_follows_location. -/
theorem http_redirect_subscription_typeerror :
    redirectRun.2 = Except.error (Err.pyError PyEx.typeError) ∧
    redirectRun.1.issued.length = 1 :=
  ⟨rfl, rfl⟩

def sRedirectClient : SClient :=
  ⟨some 1, some 0, "http://arsenal.example.com", some "AUTH", none⟩

def sRedirectOracle : Nat → Response :=
  fun i => if i == 0 then ⟨301, [("Location", "/v2/foo")], ""⟩
    else ⟨200, [("Content-Type", "application/json")], "[]"⟩

def sRedirectRun : SExecSt × Except Err Response :=
  s_http_request 4 sRedirectClient sRedirectOracle
    (some "/nodes") "GET" ⟨none, none, none, [("K", "V")], some "D"⟩ SExecSt.init

/-- SessionClient._http_request, by contrast, consumes the Location header on
a 301: the second transport call receives exactly the Location value as its
url, with method and data preserved, and the final 200 response is returned. -/
theorem s_http_request_follows_location :
    sRedirectRun.1.issued.map (fun r => (r.url, r.method, r.data))
      = [(some "/nodes", "GET", some "D"), (some "/v2/foo", "GET", some "D")] ∧
    sRedirectRun.2 = Except.ok ⟨200, [("Content-Type", "application/json")], "[]"⟩ :=
  ⟨rfl, rfl⟩

/-! ## Claim C3: 406 version renegotiation. -/

/-- First attempt runs of the retry wrapper: when the wrapped attempt returns
normally on the first try, the wrapper returns its value after exactly one
attempt with no sleeps. -/
theorem with_retries_first_ok {σ α : Type} (mR iv : Option Nat)
    (func : σ → σ × Except Err α) (s0 s1 : σ) (a : α)
    (h : func s0 = (s1, Except.ok a)) :
    with_retries mR iv func s0 = (s1, 1, [], Except.ok a) := by
  unfold with_retries
  rw [retryGo, h]

/-- The transport request one attempt of HTTPClient._http_request issues for
the given logical request: the resolved URL, the prepared headers, and the
body moved into the data field when truthy. -/
def reqOf (c : HClient) (url method : String) (kw : Kwargs) : IssuedRequest :=
  ⟨method, urljoin c.endpoint_trimmed url, prepare_headers c.auth_token kw.headers,
   if pyTruthyOptStr kw.body then kw.body else kw.data⟩

/-- The kwargs of the recursive re-issue after a 406: headers prepared and
extended with the negotiated version override, body already moved to data. -/
def kwRenegotiated (c : HClient) (kw : Kwargs) (ver : String) : Kwargs :=
  ⟨dset (prepare_headers c.auth_token kw.headers) "X-OpenStack-Arsenal-API-Version" ver,
   none, if pyTruthyOptStr kw.body then kw.body else kw.data⟩

/-- C3: a 406 response triggers version negotiation: the negotiated version is
written into the version override header, the same logical request (same
relative url, same method, same data) is recursively re-issued through the
retry wrapper, and when the retried request receives a 200 response, that
response together with its body is what the original caller receives, with no
error surfaced. -/
theorem http_request_renegotiates_after_406
    (c : HClient) (neg : Response → String) (r1 r2 : Response)
    (oracle : Nat → TransportOutcome) (url method : String) (kw : Kwargs)
    (h0 : oracle 0 = TransportOutcome.resp r1)
    (h1 : oracle 1 = TransportOutcome.resp r2)
    (hs1 : r1.status_code = 406) (hs2 : r2.status_code = 200) :
    http_request 2 c neg oracle url method kw ExecSt.init
      = (⟨[reqOf c url method kw,
           reqOf c url method (kwRenegotiated c kw (neg r1))]⟩,
         Except.ok (r2, body_str_of r2)) ∧
    dget (reqOf c url method (kwRenegotiated c kw (neg r1))).headers
      "X-OpenStack-Arsenal-API-Version" = some (neg r1) := by
  have hhr : handle_response r2 method url = Except.ok (r2, body_str_of r2) := by
    unfold handle_response
    simp [hs2]
  constructor
  · have hatt2 : http_request_attempt (http_request 0 c neg oracle) c neg oracle url method
        (kwRenegotiated c kw (neg r1)) (⟨[reqOf c url method kw]⟩ : ExecSt)
        = (⟨[reqOf c url method kw,
             reqOf c url method (kwRenegotiated c kw (neg r1))]⟩,
           Except.ok (r2, body_str_of r2)) := by
      simp only [http_request_attempt,
        show oracle (⟨[reqOf c url method kw]⟩ : ExecSt).issued.length
            = TransportOutcome.resp r2 from h1]
      rw [if_neg (show ¬ (r2.status_code == 406) = true by rw [hs2]; decide)]
      rw [hhr]
      rfl
    have hw2 := with_retries_first_ok c.conflict_max_retries c.conflict_retry_interval
      (fun s => http_request_attempt (http_request 0 c neg oracle) c neg oracle url method
        (kwRenegotiated c kw (neg r1)) s)
      (⟨[reqOf c url method kw]⟩ : ExecSt) _ _ hatt2
    have hstepA : http_request 1 c neg oracle url method
        (kwRenegotiated c kw (neg r1)) (⟨[reqOf c url method kw]⟩ : ExecSt)
        = (⟨[reqOf c url method kw,
             reqOf c url method (kwRenegotiated c kw (neg r1))]⟩,
           Except.ok (r2, body_str_of r2)) := by
      calc http_request 1 c neg oracle url method
            (kwRenegotiated c kw (neg r1)) (⟨[reqOf c url method kw]⟩ : ExecSt)
          = ((with_retries c.conflict_max_retries c.conflict_retry_interval
              (fun s => http_request_attempt (http_request 0 c neg oracle) c neg oracle
                url method (kwRenegotiated c kw (neg r1)) s)
              (⟨[reqOf c url method kw]⟩ : ExecSt)).1,
             (with_retries c.conflict_max_retries c.conflict_retry_interval
              (fun s => http_request_attempt (http_request 0 c neg oracle) c neg oracle
                url method (kwRenegotiated c kw (neg r1)) s)
              (⟨[reqOf c url method kw]⟩ : ExecSt)).2.2.2) := rfl
        _ = (⟨[reqOf c url method kw,
               reqOf c url method (kwRenegotiated c kw (neg r1))]⟩,
             Except.ok (r2, body_str_of r2)) := by rw [hw2]
    have hatt1 : http_request_attempt (http_request 1 c neg oracle) c neg oracle url method
        kw ExecSt.init
        = (⟨[reqOf c url method kw,
             reqOf c url method (kwRenegotiated c kw (neg r1))]⟩,
           Except.ok (r2, body_str_of r2)) := by
      simp only [http_request_attempt,
        show oracle ExecSt.init.issued.length = TransportOutcome.resp r1 from h0]
      rw [if_pos (show (r1.status_code == 406) = true by rw [hs1]; rfl)]
      exact hstepA
    have hw1 := with_retries_first_ok c.conflict_max_retries c.conflict_retry_interval
      (fun s => http_request_attempt (http_request 1 c neg oracle) c neg oracle url method kw s)
      ExecSt.init _ _ hatt1
    calc http_request 2 c neg oracle url method kw ExecSt.init
        = ((with_retries c.conflict_max_retries c.conflict_retry_interval
            (fun s => http_request_attempt (http_request 1 c neg oracle) c neg oracle
              url method kw s) ExecSt.init).1,
           (with_retries c.conflict_max_retries c.conflict_retry_interval
            (fun s => http_request_attempt (http_request 1 c neg oracle) c neg oracle
              url method kw s) ExecSt.init).2.2.2) := rfl
      _ = (⟨[reqOf c url method kw,
             reqOf c url method (kwRenegotiated c kw (neg r1))]⟩,
           Except.ok (r2, body_str_of r2)) := by rw [hw1]
  · show dget (prepare_headers c.auth_token
        (dset (prepare_headers c.auth_token kw.headers)
          "X-OpenStack-Arsenal-API-Version" (neg r1)))
      "X-OpenStack-Arsenal-API-Version" = some (neg r1)
    rw [dget_prepare_headers_ne _ _ _ (by decide) (by decide), dget_dset_same]

def c3client : HClient :=
  ⟨"http://a.example.com", "http://a.example.com", some "T", some 5, some 2,
   VerifyCfg.yes, none⟩

def c3oracle : Nat → TransportOutcome :=
  fun i => if i == 0 then TransportOutcome.resp ⟨406, [], ""⟩
    else TransportOutcome.resp ⟨200, [("Content-Type", "application/json")], "[1]"⟩

def c3kw : Kwargs := ⟨[("K", "V")], some "B", none⟩

/-- Witness for C3 at a concrete 406-then-200 exchange. -/
theorem http_request_renegotiates_after_406_witness :
    http_request 2 c3client (fun _ => "1.9") c3oracle "/nodes" "GET" c3kw ExecSt.init
      = (⟨[reqOf c3client "/nodes" "GET" c3kw,
           reqOf c3client "/nodes" "GET" (kwRenegotiated c3client c3kw "1.9")]⟩,
         Except.ok (⟨200, [("Content-Type", "application/json")], "[1]"⟩,
           body_str_of ⟨200, [("Content-Type", "application/json")], "[1]"⟩)) ∧
    dget (reqOf c3client "/nodes" "GET" (kwRenegotiated c3client c3kw "1.9")).headers
      "X-OpenStack-Arsenal-API-Version" = some "1.9" :=
  http_request_renegotiates_after_406 c3client (fun _ => "1.9")
    ⟨406, [], ""⟩ ⟨200, [("Content-Type", "application/json")], "[1]"⟩
    c3oracle "/nodes" "GET" c3kw rfl rfl rfl rfl

/-! ## Claim C8: empty facade result for 204, 205 or missing content type. -/

/-- C8: A JSON facade call whose response (as returned by the executor) has
status 204 or 205, or carries no content type, hands the caller that response
together with an empty list result, and no JSON decode of the body is
attempted (the tracking flag stays false), in both facade variants. -/
theorem json_request_empty_on_204_205_or_no_ct :
    (∀ fuel (c : HClient) neg oracle method url headers jbody st st2 resp bi,
      http_request fuel c neg oracle url method
          ⟨dsetdefault (dsetdefault headers "Content-Type" "application/json")
            "Accept" "application/json", Option.map jdump jbody, none⟩ st
        = (st2, Except.ok (resp, bi)) →
      (resp.status_code = 204 ∨ resp.status_code = 205 ∨
        hget resp.headers "Content-Type" = none) →
      json_request fuel c neg oracle method url headers jbody st
        = (st2, Except.ok (resp, JsonBody.emptyList), false)) ∧
    (∀ fuel (c : SClient) oracle method url headers jbody st st2 resp,
      s_http_request fuel c oracle (some url) method
          ⟨none, none, none,
           dsetdefault (dsetdefault headers "Content-Type" "application/json")
             "Accept" "application/json", Option.map jdump jbody⟩ st
        = (st2, Except.ok resp) →
      (resp.status_code = 204 ∨ resp.status_code = 205 ∨
        hget resp.headers "content-type" = none) →
      s_json_request fuel c oracle method url headers jbody st
        = (st2, Except.ok (resp, JsonBody.emptyList), false)) := by
  constructor
  · intro fuel c neg oracle method url headers jbody st st2 resp bi hexec hstat
    simp only [json_request, hexec]
    rcases hstat with h | h | h
    · simp [json_request_finish, h]
    · simp [json_request_finish, h]
    · simp [json_request_finish, h]
  · intro fuel c oracle method url headers jbody st st2 resp hexec hstat
    simp only [s_json_request, hexec]
    rcases hstat with h | h | h
    · simp [s_json_request_finish, h]
    · simp [s_json_request_finish, h]
    · simp [s_json_request_finish, h]

def c8client : HClient := ⟨"http://h", "http://h", none, some 0, some 0, VerifyCfg.yes, none⟩

def c8resp : Response := ⟨204, [("Content-Type", "application/json")], ""⟩

def c8oracle : Nat → TransportOutcome := fun _ => TransportOutcome.resp c8resp

def c8st2 : ExecSt := ⟨[⟨"GET", "http://h/n",
  [("Content-Type", "application/json"), ("Accept", "application/json"),
   ("User-Agent", "python-arsenalclient")], none⟩]⟩

def c8sclient : SClient := ⟨some 0, some 0, "http://h", some "A", none⟩

def c8soracle : Nat → Response := fun _ => c8resp

def c8sst2 : SExecSt := ⟨[⟨some "/n", "GET", some "python-arsenalclient", some "A", none,
  [("Content-Type", "application/json"), ("Accept", "application/json")], none⟩]⟩

/-- Witness for C8 at a concrete 204 exchange for both facade variants. -/
theorem json_request_empty_witness :
    http_request 2 c8client (fun _ => "1") c8oracle "/n" "GET"
        ⟨dsetdefault (dsetdefault [] "Content-Type" "application/json")
          "Accept" "application/json", Option.map jdump none, none⟩ ExecSt.init
      = (c8st2, Except.ok (c8resp, some "")) ∧
    json_request 2 c8client (fun _ => "1") c8oracle "GET" "/n" [] none ExecSt.init
      = (c8st2, Except.ok (c8resp, JsonBody.emptyList), false) ∧
    s_http_request 2 c8sclient c8soracle (some "/n") "GET"
        ⟨none, none, none,
         dsetdefault (dsetdefault [] "Content-Type" "application/json")
           "Accept" "application/json", Option.map jdump none⟩ SExecSt.init
      = (c8sst2, Except.ok c8resp) ∧
    s_json_request 2 c8sclient c8soracle "GET" "/n" [] none SExecSt.init
      = (c8sst2, Except.ok (c8resp, JsonBody.emptyList), false) := by
  have h1 : http_request 2 c8client (fun _ => "1") c8oracle "/n" "GET"
      ⟨dsetdefault (dsetdefault [] "Content-Type" "application/json")
        "Accept" "application/json", Option.map jdump none, none⟩ ExecSt.init
      = (c8st2, Except.ok (c8resp, some "")) := rfl
  have h3 : s_http_request 2 c8sclient c8soracle (some "/n") "GET"
      ⟨none, none, none,
       dsetdefault (dsetdefault [] "Content-Type" "application/json")
         "Accept" "application/json", Option.map jdump none⟩ SExecSt.init
      = (c8sst2, Except.ok c8resp) := rfl
  exact ⟨h1,
    json_request_empty_on_204_205_or_no_ct.1 2 c8client (fun _ => "1") c8oracle
      "GET" "/n" [] none ExecSt.init c8st2 c8resp (some "") h1 (Or.inl rfl),
    h3,
    json_request_empty_on_204_205_or_no_ct.2 2 c8sclient c8soracle
      "GET" "/n" [] none SExecSt.init c8sst2 c8resp h3 (Or.inl rfl)⟩

/-! ## Auxiliary facts about redaction (claim C6 context).

Redaction is a pure function of the value, so determinism holds by
construction; the redacted value always has the fixed length 46 (the 6
character marker plus a 40 character hexdigest), so it differs from every
original value of any other length. Whether some 46 character value equal to
its own marker-prefixed digest exists is a fixed point question about SHA1
that is neither provable nor refutable here, which is why the never-equal
half of the claim stays open. -/

theorem sha1hex_length (s : String) : (sha1hex s).length = 40 := by
  simp [sha1hex, wordHex, String.length]

theorem process_header_redacted_length (v : String) :
    (_process_header "X-Auth-Token" v).2.length = 46 := by
  have h : _process_header "X-Auth-Token" v
      = ("X-Auth-Token", "\x7bSHA1\x7d" ++ sha1hex v) := by
    simp [_process_header, SENSITIVE_HEADERS]
  rw [h]
  show ("\x7bSHA1\x7d" ++ sha1hex v).length = 46
  rw [String.length_append, sha1hex_length]
  rfl

theorem process_header_redacted_ne_of_length (v : String) (h : ¬ v.length = 46) :
    ¬ (_process_header "X-Auth-Token" v).2 = v := by
  intro he
  apply h
  rw [← he, process_header_redacted_length]
